import Mathlib

/-!
Verification development for the Hill County frontage service (src/app.py).

The service logic is embedded shallowly:

* Python string operations (`upper`, `strip`, slicing, `in`) are modelled as
  structurally recursive functions on `String.data : List Char` (ASCII scope).
* Python `int(s)` is modelled by `pyIntOfString?`, returning `none` where
  `int` raises `ValueError`; `str(int(s))` re-renders via `toString : ℤ → String`.
* Python floats are modelled as exact rationals `ℚ`; `round(x, 2)` is modelled
  by `round2`, rounding half-to-even as Python's `round` does.
* Python `list.sort(key=...)` (a stable sort) is modelled by `pySort`, a stable
  insertion sort; two stable sorts with the same comparison produce the same
  list, so the model is exact.
* The geometry library (shapely, via geopandas) is an external collaborator:
  its operations are a parameter `GeomOps G`.  Facts the code relies on
  (buffer monotonicity etc.) enter theorems as explicit hypotheses, and
  concrete scenes instantiate them.
* The two Flask endpoints are total functions into `Except Unit _`, where
  `.error ()` models an uncaught Python exception escaping the handler.
-/

/-- Python `s.upper()` for ASCII strings: uppercase each character. -/
def pyUpper (s : String) : String := ⟨s.data.map Char.toUpper⟩

/-- Python `s.strip()`: drop whitespace from both ends. -/
def pyStrip (s : String) : String :=
  ⟨((s.data.dropWhile Char.isWhitespace).reverse.dropWhile Char.isWhitespace).reverse⟩

/-- Python `s.startswith(c)` for a one-character pattern. -/
def pyStartsWithChar (s : String) (c : Char) : Bool :=
  match s.data with
  | [] => false
  | d :: _ => d == c

/-- Python `s[1:]`: drop the first character. -/
def pyDropFirst (s : String) : String := ⟨s.data.drop 1⟩

/-- Helper for substring search: does `l2` begin with `l1`? -/
def listStartsList : List Char → List Char → Bool
  | _, [] => true
  | [], _ :: _ => false
  | a :: l1, b :: l2 => a == b && listStartsList l1 l2

/-- Helper for substring search: does some suffix of the first list begin with the pattern? -/
def listHasRun : List Char → List Char → Bool
  | [], pat => listStartsList [] pat
  | a :: l, pat => listStartsList (a :: l) pat || listHasRun l pat

/-- Python `pat in s` on strings: substring containment. -/
def pyContains (s pat : String) : Bool := listHasRun s.data pat.data

/-- Digit loop of Python `int()`: after a first digit, accept further digits with
single underscores allowed strictly between digits (`1_000` parses as 1000). -/
def parseDigitsGo : ℕ → List Char → Option ℕ
  | acc, [] => some acc
  | acc, c :: rest =>
    if c.isDigit then parseDigitsGo (10 * acc + (c.toNat - 48)) rest
    else if c = '_' then
      match rest with
      | [] => none
      | c2 :: rest2 =>
        if c2.isDigit then parseDigitsGo (10 * acc + (c2.toNat - 48)) rest2 else none
    else none

/-- Digit sequence of Python `int()`: at least one digit, then `parseDigitsGo`. -/
def parseDigitsU : List Char → Option ℕ
  | [] => none
  | c :: rest => if c.isDigit then parseDigitsGo (c.toNat - 48) rest else none

/-- Sign-and-digits part of Python `int()`: an optional sign then a digit
sequence. -/
def pyIntCore : List Char → Option ℤ
  | [] => none
  | c :: rest =>
    if c = '+' then (parseDigitsU rest).map (fun n => Int.ofNat n)
    else if c = '-' then (parseDigitsU rest).map (fun n => -Int.ofNat n)
    else (parseDigitsU (c :: rest)).map (fun n => Int.ofNat n)

/-- Python `int(s)` for base 10 (ASCII scope): optional surrounding whitespace,
optional sign, then a digit sequence.  `none` models `ValueError`. -/
def pyIntOfString? (s : String) : Option ℤ :=
  pyIntCore (((s.data.dropWhile Char.isWhitespace).reverse.dropWhile Char.isWhitespace).reverse)

/-- Value of a digit string (most significant digit first). -/
def digitsVal (l : List Char) : ℕ := l.foldl (fun a c => 10 * a + (c.toNat - 48)) 0

/-- Residue of `normalize_parcel_id` before integer parsing (src/app.py lines 16-18):
`str(parcel_id).upper().strip()`, then drop a single leading letter R. -/
def normalizeResidue (parcel_id : String) : String :=
  let p := pyStrip (pyUpper parcel_id)
  if pyStartsWithChar p 'R' then pyDropFirst p else p

/-- Shallow embedding of `normalize_parcel_id` (src/app.py lines 15-19).  The
source returns `str(int(p))` with no exception handler, so a residue that
`int()` cannot parse raises `ValueError`; that is modelled as `none`.  The
function reads no mutable state: it is deterministic and side-effect-free. -/
def normalize_parcel_id (parcel_id : String) : Option String :=
  (pyIntOfString? (normalizeResidue parcel_id)).map (fun n => toString n)

/-- Banker's rounding of a rational to an integer, as Python `round` does:
round to the nearest integer, ties to the even neighbour. -/
def roundHalfEven (x : ℚ) : ℤ :=
  if x - ⌊x⌋ < 1/2 then ⌊x⌋
  else if 1/2 < x - ⌊x⌋ then ⌊x⌋ + 1
  else if ⌊x⌋ % 2 = 0 then ⌊x⌋ else ⌊x⌋ + 1

/-- Python `round(x, 2)`: two-decimal rounding, half to even. -/
def round2 (x : ℚ) : ℚ := (roundHalfEven (x * 100) : ℚ) / 100

/-- Stable insertion step: place `a` before the first element `b` with `le a b`. -/
def pyOrderedInsert {α : Type} (le : α → α → Bool) (a : α) : List α → List α
  | [] => [a]
  | b :: l => if le a b then a :: b :: l else b :: pyOrderedInsert le a l

/-- Stable insertion sort.  Python's `list.sort` is a stable sort; two stable
sorts agree elementwise for the same (total, transitive) comparison, so this
models `list.sort(key=...)` exactly, including tie order. -/
def pySort {α : Type} (le : α → α → Bool) : List α → List α
  | [] => []
  | a :: l => pyOrderedInsert le a (pySort le l)

/-- Street-table row: line geometry plus the attributes the service reads.
`CFCC = none` models a null (NaN) road-class code; the name-part columns
default to the empty string as the source's `street.get(field, '')` does. -/
structure StreetRow (G : Type) where
  geometry : G
  CFCC : Option String
  FEDIRP : String := ""
  FENAME : String := ""
  FETYPE : String := ""
  FEDIRS : String := ""
deriving DecidableEq

/-- Parcel-table row: polygon geometry plus the attributes the service reads. -/
structure ParcelRow (G : Type) where
  geometry : G
  PROP_ID : String
  situs_num : String := ""
  situs_stre : String := ""
  situs_city : String := ""
  situs_zip : String := ""
deriving DecidableEq

/-- Geometry operations the service delegates to the external geometry library
(shapely): the resolver is parametric in them. -/
structure GeomOps (G : Type) where
  boundary : G → G
  buffer : G → ℚ → G
  intersection : G → G → G
  is_empty : G → Bool
  length : G → ℚ
  distance : G → G → ℚ
  intersects : G → G → Bool
  area : G → ℚ
  bounds : G → List ℚ

/-- Frontage segment as returned in the `roads` array (src/app.py lines 49-54). -/
structure FrontageSeg where
  street_name : String
  frontage_ft : ℚ
  road_type : String
  cfcc : String
deriving DecidableEq, Inhabited

/-- Nearby-road record as returned by `get_nearby_streets` (src/app.py lines 79-84). -/
structure NearbyRoad where
  street_name : String
  cfcc : String
  road_type : String
  distance_ft : ℚ
deriving DecidableEq, Inhabited

/-- Street display name (src/app.py line 37): an f-string joining the four name
fields with single spaces, then `.strip()`.  Empty fields are not skipped, so
interior double spaces survive; an all-empty row yields the empty string. -/
def streetName {G : Type} (s : StreetRow G) : String :=
  pyStrip (s.FEDIRP ++ " " ++ s.FENAME ++ " " ++ s.FETYPE ++ " " ++ s.FEDIRS)

/-- Display form of the raw CFCC value in a frontage segment (src/app.py line 53):
`str(cfcc) if cfcc else "None"`.  A NaN (modelled `none`) is truthy in Python and
stringifies to "nan"; an empty string is falsy and yields "None". -/
def cfccDisplay (c : Option String) : String :=
  match c with
  | some s => if s = "" then "None" else s
  | none => "nan"

/-- Interpolated CFCC text (Python f-string): NaN renders as "nan". -/
def cfccFString (c : Option String) : String :=
  match c with
  | some s => s
  | none => "nan"

/-- Road-type classification in the resolver (src/app.py lines 40-47). -/
def roadTypeOf {G : Type} (s : StreetRow G) : String :=
  if s.CFCC = some ("A41") then "Secondary Highway"
  else if s.CFCC = some ("A51") then "Local Road"
  else if s.CFCC = some ("PR") ∨ pyContains s.FENAME ("PR") = true then "Private Road"
  else "Other (" ++ cfccFString s.CFCC ++ ")"

/-- Public-road filter (src/app.py lines 28-31): rows with a non-null CFCC in
{A41, A51}. -/
def publicFilter {G : Type} (streets : List (StreetRow G)) : List (StreetRow G) :=
  streets.filter (fun s =>
    s.CFCC.isSome && decide (s.CFCC = some ("A41") ∨ s.CFCC = some ("A51")))

/-- Per-street body of the resolver loop (src/app.py lines 34-54): intersect the
buffered boundary with the street, skip empty or zero-length intersections,
otherwise build the frontage record with the per-segment `round(length, 2)`. -/
def frontageEntry {G : Type} (ops : GeomOps G) (parcel_boundary : G)
    (street : StreetRow G) : Option FrontageSeg :=
  let i := ops.intersection parcel_boundary street.geometry
  if ops.is_empty i = false ∧ 0 < ops.length i then
    some { street_name := streetName street
           frontage_ft := round2 (ops.length i)
           road_type := roadTypeOf street
           cfcc := cfccDisplay street.CFCC }
  else none

/-- Descending stable sort by `frontage_ft` (src/app.py line 56,
`sort(key=..., reverse=True)`). -/
def sortByFrontageDesc (l : List FrontageSeg) : List FrontageSeg :=
  pySort (fun a b => decide (b.frontage_ft ≤ a.frontage_ft)) l

/-- Shallow embedding of `calculate_frontage_with_tolerance` (src/app.py
lines 21-57).  Note the boundary is always buffered by `tolerance`; there is no
special case for `tolerance = 0`. -/
def calculate_frontage_with_tolerance {G : Type} (ops : GeomOps G)
    (streets : List (StreetRow G)) (parcel_geom : G) (tolerance : ℚ)
    (include_private : Bool) : List FrontageSeg :=
  let parcel_boundary := ops.buffer (ops.boundary parcel_geom) tolerance
  let filtered_streets := if include_private then streets else publicFilter streets
  let frontages := filtered_streets.filterMap (frontageEntry ops parcel_boundary)
  sortByFrontageDesc frontages

/-- Exact (un-rounded) intersection lengths of the streets the resolver keeps,
in street-table order; mirrors the inclusion test of `frontageEntry`. -/
def exactIntersectionLengths {G : Type} (ops : GeomOps G)
    (streets : List (StreetRow G)) (parcel_geom : G) (tolerance : ℚ)
    (include_private : Bool) : List ℚ :=
  let parcel_boundary := ops.buffer (ops.boundary parcel_geom) tolerance
  let filtered_streets := if include_private then streets else publicFilter streets
  filtered_streets.filterMap (fun street =>
    if ops.is_empty (ops.intersection parcel_boundary street.geometry) = false ∧
        0 < ops.length (ops.intersection parcel_boundary street.geometry) then
      some (ops.length (ops.intersection parcel_boundary street.geometry))
    else none)

/-- Modelled from the spec: "Resolver output `total_length` equals the sum of
each returned segment's length, exactly (no rounding drift beyond a fixed
2-decimal display rounding applied only at the boundary, not internally)" -
the total a sum of exact per-segment intersection lengths, with the 2-decimal
rounding applied once at the output boundary and never per segment. -/
def specTotalRoundedOnce {G : Type} (ops : GeomOps G)
    (streets : List (StreetRow G)) (parcel_geom : G) (tolerance : ℚ)
    (include_private : Bool) : ℚ :=
  round2 (exactIntersectionLengths ops streets parcel_geom tolerance include_private).sum

/-- Road-type classification used by `get_nearby_streets` (src/app.py
lines 70-77): no name-substring fallback here. -/
def nearbyRoadTypeOf (c : Option String) : String :=
  if c = some ("A41") then "Secondary Highway"
  else if c = some ("A51") then "Local Road"
  else if c = some ("PR") then "Private Road"
  else "Other/Unknown"

/-- Ascending stable sort by `distance_ft` (src/app.py line 86). -/
def sortByDistanceAsc (l : List NearbyRoad) : List NearbyRoad :=
  pySort (fun a b => decide (a.distance_ft ≤ b.distance_ft)) l

/-- Shallow embedding of `get_nearby_streets` (src/app.py lines 59-87): streets
intersecting the parcel buffered by `buffer_distance`, annotated with the
rounded parcel-to-street distance, sorted ascending by that distance.  The
`cfcc` field is `str(cfcc) if cfcc is not None else "NULL"`; the CFCC column is
always present, so a null value is a NaN, which is not None and stringifies to
"nan". -/
def get_nearby_streets {G : Type} (ops : GeomOps G) (streets : List (StreetRow G))
    (parcel_geom : G) (buffer_distance : ℚ) : List NearbyRoad :=
  let buffered := ops.buffer parcel_geom buffer_distance
  let nearby_streets := streets.filter (fun s => ops.intersects s.geometry buffered)
  let street_info := nearby_streets.map (fun street =>
    { street_name := streetName street
      cfcc := cfccFString street.CFCC
      road_type := nearbyRoadTypeOf street.CFCC
      distance_ft := round2 (ops.distance parcel_geom street.geometry) : NearbyRoad })
  sortByDistanceAsc street_info

/-- Situs address string (src/app.py lines 123 and 227). -/
def situsAddress {G : Type} (p : ParcelRow G) : String :=
  pyStrip (p.situs_num ++ " " ++ p.situs_stre ++ ", " ++ p.situs_city ++ " " ++ p.situs_zip)

/-- Response body of a successful `/calculate-frontage` call (src/app.py
lines 229-238). -/
structure FrontageResponse where
  parcel_id : String
  normalized_id : String
  address : String
  total_frontage_ft : ℚ
  road_count : ℕ
  roads : List FrontageSeg
  tolerance_ft : ℚ
  include_private : Bool
deriving DecidableEq, Inhabited

/-- Outcome of the `/calculate-frontage` handler body: 400, 404 or 200. -/
inductive FrontageResult where
  | badRequest
  | notFound (parcel_id : String) (normalized_id : String)
  | ok (r : FrontageResponse)
deriving DecidableEq, Inhabited

/-- Shallow embedding of the `/calculate-frontage` handler (src/app.py
lines 202-238).  `parcel_id? = none` models an absent JSON key; the empty
string is falsy in Python, so both yield the 400 response.  A `ValueError`
escaping `normalize_parcel_id` is an unhandled exception (`.error ()`). -/
def calculate_frontage {G : Type} (ops : GeomOps G) (parcels : List (ParcelRow G))
    (streets : List (StreetRow G)) (parcel_id? : Option String) (tolerance : ℚ)
    (include_private : Bool) : Except Unit FrontageResult :=
  match parcel_id? with
  | none => .ok .badRequest
  | some parcel_id =>
    if parcel_id = "" then .ok .badRequest
    else
      match normalize_parcel_id parcel_id with
      | none => .error ()
      | some normalized_id =>
        match parcels.find? (fun p => decide (p.PROP_ID = normalized_id)) with
        | none => .ok (.notFound parcel_id normalized_id)
        | some parcel =>
          let frontages :=
            calculate_frontage_with_tolerance ops streets parcel.geometry tolerance include_private
          let total := (frontages.map (fun r => r.frontage_ft)).sum
          .ok (.ok { parcel_id := parcel_id
                     normalized_id := normalized_id
                     address := situsAddress parcel
                     total_frontage_ft := round2 total
                     road_count := frontages.length
                     roads := frontages
                     tolerance_ft := tolerance
                     include_private := include_private })

/-- Per-tier block of the `/analyze-parcel` response (src/app.py
lines 148-181). -/
structure TierAnalysis where
  description : String
  confidence : String
  total_frontage_ft : ℚ
  road_count : ℕ
  roads : List FrontageSeg
deriving DecidableEq, Inhabited

/-- Nearby-roads block of the `/analyze-parcel` response (src/app.py
lines 184-188). -/
structure NearbyBlock where
  description : String
  count : ℕ
  roads : List NearbyRoad
deriving DecidableEq, Inhabited

/-- Summary block of the `/analyze-parcel` response (src/app.py lines 191-199). -/
structure LlmContext where
  has_strict_frontage : Bool
  has_moderate_frontage : Bool
  has_permissive_frontage : Bool
  has_any_road_access : Bool
  nearest_public_road_distance : Option ℚ
  nearest_any_road_distance : Option ℚ
  data_quality_note : String
deriving DecidableEq, Inhabited

/-- Response body of a successful `/analyze-parcel` call (src/app.py
lines 140-200). -/
structure AnalyzeResponse where
  parcel_id : String
  normalized_id : String
  address : String
  parcel_area_sqft : ℚ
  parcel_bounds : List ℚ
  strict_analysis : TierAnalysis
  moderate_analysis : TierAnalysis
  permissive_public_analysis : TierAnalysis
  permissive_all_analysis : TierAnalysis
  nearby_roads : NearbyBlock
  llm_context : LlmContext
deriving DecidableEq, Inhabited

/-- Outcome of the `/analyze-parcel` handler body: 400, 404 or 200. -/
inductive AnalyzeResult where
  | badRequest
  | notFound (parcel_id : String) (normalized_id : String)
  | ok (r : AnalyzeResponse)
deriving DecidableEq, Inhabited

/-- Shallow embedding of the `/analyze-parcel` handler (src/app.py
lines 97-200): four fixed resolver tiers, the nearby-roads inventory
truncated to the 20 nearest, and the summary block. -/
def analyze_parcel {G : Type} (ops : GeomOps G) (parcels : List (ParcelRow G))
    (streets : List (StreetRow G)) (parcel_id? : Option String) :
    Except Unit AnalyzeResult :=
  match parcel_id? with
  | none => .ok .badRequest
  | some parcel_id =>
    if parcel_id = "" then .ok .badRequest
    else
      match normalize_parcel_id parcel_id with
      | none => .error ()
      | some normalized_id =>
        match parcels.find? (fun p => decide (p.PROP_ID = normalized_id)) with
        | none => .ok (.notFound parcel_id normalized_id)
        | some parcel =>
          let parcel_geom := parcel.geometry
          let strict := calculate_frontage_with_tolerance ops streets parcel_geom 30 false
          let moderate := calculate_frontage_with_tolerance ops streets parcel_geom 100 false
          let permissive_public := calculate_frontage_with_tolerance ops streets parcel_geom 500 false
          let permissive_all := calculate_frontage_with_tolerance ops streets parcel_geom 500 true
          let nearby := get_nearby_streets ops streets parcel_geom 1000
          let strict_total := (strict.map (fun r => r.frontage_ft)).sum
          let moderate_total := (moderate.map (fun r => r.frontage_ft)).sum
          let permissive_public_total := (permissive_public.map (fun r => r.frontage_ft)).sum
          let permissive_all_total := (permissive_all.map (fun r => r.frontage_ft)).sum
          .ok (.ok
            { parcel_id := parcel_id
              normalized_id := normalized_id
              address := situsAddress parcel
              parcel_area_sqft := round2 (ops.area parcel_geom)
              parcel_bounds := ops.bounds parcel_geom
              strict_analysis :=
                { description := "30ft tolerance, public roads only (A41, A51)"
                  confidence := "high"
                  total_frontage_ft := round2 strict_total
                  road_count := strict.length
                  roads := strict }
              moderate_analysis :=
                { description := "100ft tolerance, public roads only"
                  confidence := "medium"
                  total_frontage_ft := round2 moderate_total
                  road_count := moderate.length
                  roads := moderate }
              permissive_public_analysis :=
                { description := "500ft tolerance, public roads only"
                  confidence := "low"
                  total_frontage_ft := round2 permissive_public_total
                  road_count := permissive_public.length
                  roads := permissive_public }
              permissive_all_analysis :=
                { description := "500ft tolerance, includes private roads"
                  confidence := "context"
                  total_frontage_ft := round2 permissive_all_total
                  road_count := permissive_all.length
                  roads := permissive_all }
              nearby_roads :=
                { description := "All roads within 1000ft (for LLM context)"
                  count := nearby.length
                  roads := nearby.take 20 }
              llm_context :=
                { has_strict_frontage := decide (0 < strict_total)
                  has_moderate_frontage := decide (0 < moderate_total)
                  has_permissive_frontage := decide (0 < permissive_public_total)
                  has_any_road_access := decide (0 < permissive_all_total)
                  nearest_public_road_distance :=
                    ((nearby.filter (fun r =>
                        decide (r.road_type = "Secondary Highway" ∨ r.road_type = "Local Road"))).map
                      (fun r => r.distance_ft)).min?
                  nearest_any_road_distance :=
                    if nearby.isEmpty then none
                    else (nearby.map (fun r => r.distance_ft)).min?
                  data_quality_note :=
                    "Large gaps (>100ft) between parcel and road may indicate shapefile accuracy issues" } })

/-!
Concrete test scene, used by witnesses and counterexamples.  Geometry values
model shapely outputs for this scene:

* `gParcel`: a 100 x 100 ft square parcel; `gBoundary` its 400 ft boundary ring.
* `gBand t`: the boundary dilated by `t > 0`.  Shapely's zero-width buffer of a
  curve (`line.buffer(0)`) is an empty polygon, so buffering `gBoundary` by 0
  yields `gEmpty`.
* `gHull d`: the whole parcel buffered by `d` (used by `get_nearby_streets`).
* `gA`: centerline of MAIN ST, a local road 10 ft outside the parcel; the band
  overlaps it in a chord of length `100 + t` once `t` reaches 10.
* `gB`: PRIVATE DR, null road-class code, 50 ft away; chord `60 + t` once
  `t` reaches 50.
* `gC`: FAR RD, a secondary highway 2000 ft away; never intersects.
* `gD`: EDGE RD, a local road running exactly along the south edge; the raw
  boundary intersects it in a 100 ft line, and any positive band contains it.
* `gT`, `gT2`: TINY LN / TINY2 LN, local-road stubs clipping the band in a
  0.004 ft sliver once `t` reaches 5.
* `gSeg q`: a measured intersection result of length `q`.
-/

inductive DemoG where
  | gEmpty
  | gParcel
  | gBoundary
  | gBand (t : ℚ)
  | gHull (d : ℚ)
  | gA
  | gB
  | gC
  | gD
  | gT
  | gT2
  | gSeg (len : ℚ)
deriving DecidableEq

/-- Boundary extraction in the demo scene. -/
def demoBoundary : DemoG → DemoG
  | .gParcel => .gBoundary
  | _ => .gEmpty

/-- Buffering in the demo scene; a zero-width buffer of the boundary curve is
empty, as in shapely. -/
def demoBuffer : DemoG → ℚ → DemoG
  | .gBoundary, t => if t = 0 then .gEmpty else .gBand t
  | .gParcel, d => .gHull d
  | _, _ => .gEmpty

/-- Intersection results in the demo scene. -/
def demoIntersection : DemoG → DemoG → DemoG
  | .gBand t, .gA => if 10 ≤ t then .gSeg (100 + t) else .gEmpty
  | .gBand t, .gB => if 50 ≤ t then .gSeg (60 + t) else .gEmpty
  | .gBand _, .gC => .gEmpty
  | .gBand _, .gD => .gSeg 100
  | .gBand t, .gT => if 5 ≤ t then .gSeg (1/250) else .gEmpty
  | .gBand t, .gT2 => if 5 ≤ t then .gSeg (1/250) else .gEmpty
  | .gBoundary, .gD => .gSeg 100
  | _, _ => .gEmpty

/-- Lengths in the demo scene. -/
def demoLength : DemoG → ℚ
  | .gSeg l => l
  | .gBoundary => 400
  | .gA => 1000
  | .gB => 800
  | .gC => 1200
  | .gD => 100
  | .gT => 3
  | .gT2 => 3
  | _ => 0

/-- Emptiness flag in the demo scene. -/
def demoIsEmpty : DemoG → Bool
  | .gEmpty => true
  | _ => false

/-- Parcel-to-street distances in the demo scene. -/
def demoDistance : DemoG → DemoG → ℚ
  | .gParcel, .gA => 10
  | .gParcel, .gB => 50
  | .gParcel, .gC => 2000
  | .gParcel, .gD => 0
  | .gParcel, .gT => 5
  | .gParcel, .gT2 => 5
  | _, _ => 0

/-- Intersection tests against the buffered parcel hull in the demo scene. -/
def demoIntersects : DemoG → DemoG → Bool
  | .gA, .gHull d => decide (10 ≤ d)
  | .gB, .gHull d => decide (50 ≤ d)
  | .gC, .gHull d => decide (2000 ≤ d)
  | .gD, .gHull _ => true
  | .gT, .gHull d => decide (5 ≤ d)
  | .gT2, .gHull d => decide (5 ≤ d)
  | _, _ => false

/-- Area in the demo scene. -/
def demoArea : DemoG → ℚ
  | .gParcel => 10000
  | _ => 0

/-- Bounding box in the demo scene. -/
def demoBounds : DemoG → List ℚ
  | .gParcel => [0, 0, 100, 100]
  | _ => []

/-- Geometry operations of the demo scene. -/
def demoOps : GeomOps DemoG where
  boundary := demoBoundary
  buffer := demoBuffer
  intersection := demoIntersection
  is_empty := demoIsEmpty
  length := demoLength
  distance := demoDistance
  intersects := demoIntersects
  area := demoArea
  bounds := demoBounds

/-- MAIN ST, a local road (A51) 10 ft from the parcel. -/
def streetA : StreetRow DemoG :=
  { geometry := .gA, CFCC := some ("A51"), FENAME := "MAIN", FETYPE := "ST" }

/-- PRIVATE DR, null (NaN) road-class code, 50 ft from the parcel. -/
def streetB : StreetRow DemoG :=
  { geometry := .gB, CFCC := none, FENAME := "PRIVATE", FETYPE := "DR" }

/-- FAR RD, a secondary highway (A41) 2000 ft from the parcel. -/
def streetC : StreetRow DemoG :=
  { geometry := .gC, CFCC := some ("A41"), FENAME := "FAR", FETYPE := "RD" }

/-- EDGE RD, a local road running along the parcel boundary. -/
def streetD : StreetRow DemoG :=
  { geometry := .gD, CFCC := some ("A51"), FENAME := "EDGE", FETYPE := "RD" }

/-- TINY LN, a local road whose band intersection is a 0.004 ft sliver. -/
def streetT : StreetRow DemoG :=
  { geometry := .gT, CFCC := some ("A51"), FENAME := "TINY", FETYPE := "LN" }

/-- TINY2 LN, a second 0.004 ft sliver street. -/
def streetT2 : StreetRow DemoG :=
  { geometry := .gT2, CFCC := some ("A51"), FENAME := "TINY2", FETYPE := "LN" }

/-- Street row along the boundary with every name part empty. -/
def streetNoName : StreetRow DemoG :=
  { geometry := .gD, CFCC := some ("A51") }

/-- Street row along the boundary with an empty name between a direction
prefix letter and a type. -/
def streetNST : StreetRow DemoG :=
  { geometry := .gD, CFCC := some ("A51"), FEDIRP := "N", FETYPE := "ST" }

/-- Default street table of the scene. -/
def demoStreets : List (StreetRow DemoG) := [streetA, streetB, streetC]

/-- Parcel row of the scene, with PROP_ID key "1". -/
def demoParcel : ParcelRow DemoG :=
  { geometry := .gParcel, PROP_ID := "1", situs_num := "100",
    situs_stre := "MAIN ST", situs_city := "HILLSBORO", situs_zip := "76645" }

/-- Parcel table of the scene. -/
def demoParcels : List (ParcelRow DemoG) := [demoParcel]

/-- Street table with two sliver streets (rounding-drift scene). -/
def c4Streets : List (StreetRow DemoG) := [streetT, streetT2]

/-- Street table with one sliver street. -/
def c10Streets : List (StreetRow DemoG) := [streetT]

/-- Street table with only the along-boundary road. -/
def c3Streets : List (StreetRow DemoG) := [streetD]

/-- Street table with only the unnamed road. -/
def c7Streets : List (StreetRow DemoG) := [streetNoName]

/-- Analyze response of the scene for parcel id "R1" over `demoStreets`. -/
def c9Resp : AnalyzeResponse :=
  match analyze_parcel demoOps demoParcels demoStreets (some ("R1")) with
  | .ok (.ok r) => r
  | _ => default

/-- Analyze response of the scene for parcel id "R1" over `c10Streets`. -/
def c10Resp : AnalyzeResponse :=
  match analyze_parcel demoOps demoParcels c10Streets (some ("R1")) with
  | .ok (.ok r) => r
  | _ => default

/-- Frontage response of the scene for parcel id "R1" over `c4Streets` at
tolerance 30, public only. -/
def c4Resp : FrontageResponse :=
  match calculate_frontage demoOps demoParcels c4Streets (some ("R1")) 30 false with
  | .ok (.ok r) => r
  | _ => default


/-!
General lemmas: rounding, the stable sort, and the `int()` parser.
-/

theorem le_roundHalfEven (x : ℚ) : ⌊x⌋ ≤ roundHalfEven x := by
  unfold roundHalfEven
  split_ifs <;> omega

theorem roundHalfEven_le (x : ℚ) : roundHalfEven x ≤ ⌊x⌋ + 1 := by
  unfold roundHalfEven
  split_ifs <;> omega

theorem roundHalfEven_intCast (k : ℤ) : roundHalfEven (k : ℚ) = k := by
  unfold roundHalfEven
  rw [Int.floor_intCast]
  norm_num

theorem roundHalfEven_mono {x y : ℚ} (h : x ≤ y) : roundHalfEven x ≤ roundHalfEven y := by
  have hfle : ⌊x⌋ ≤ ⌊y⌋ := Int.floor_le_floor h
  rcases eq_or_lt_of_le hfle with hf | hf
  · unfold roundHalfEven
    rw [hf]
    split_ifs <;> first | omega | linarith
  · calc roundHalfEven x ≤ ⌊x⌋ + 1 := roundHalfEven_le x
      _ ≤ ⌊y⌋ := by omega
      _ ≤ roundHalfEven y := le_roundHalfEven y

theorem roundHalfEven_nonneg {x : ℚ} (h : 0 ≤ x) : 0 ≤ roundHalfEven x :=
  le_trans (Int.floor_nonneg.mpr h) (le_roundHalfEven x)

theorem roundHalfEven_of_floor (x : ℚ) (n : ℤ) (hlo : (n : ℚ) ≤ x) (hhi : x < n + 1) :
    roundHalfEven x =
      if x - n < 1/2 then n else if 1/2 < x - n then n + 1 else if n % 2 = 0 then n else n + 1 := by
  have hf : ⌊x⌋ = n := by
    rw [Int.floor_eq_iff]
    · exact ⟨hlo, by exact_mod_cast hhi⟩
  rw [roundHalfEven, hf]

theorem round2_lo (x : ℚ) (n : ℤ) (hlo : (n : ℚ) ≤ x * 100) (hhi : x * 100 - n < 1/2) :
    round2 x = (n : ℚ) / 100 := by
  rw [round2, roundHalfEven_of_floor (x * 100) n hlo (by linarith), if_pos hhi]

theorem round2_hi (x : ℚ) (n : ℤ) (hlo : 1/2 < x * 100 - n) (hhi : x * 100 < (n : ℚ) + 1) :
    round2 x = ((n : ℚ) + 1) / 100 := by
  rw [round2, roundHalfEven_of_floor (x * 100) n (by linarith) hhi, if_neg (by linarith),
    if_pos hlo]
  push_cast
  ring

theorem round2_zero : round2 0 = 0 := by
  rw [round2_lo 0 0 (by norm_num) (by norm_num)]
  norm_num

theorem round2_mono {x y : ℚ} (h : x ≤ y) : round2 x ≤ round2 y := by
  unfold round2
  have h2 : roundHalfEven (x * 100) ≤ roundHalfEven (y * 100) :=
    roundHalfEven_mono (by linarith)
  have h3 : ((roundHalfEven (x * 100) : ℤ) : ℚ) ≤ ((roundHalfEven (y * 100) : ℤ) : ℚ) := by
    exact_mod_cast h2
  linarith

theorem round2_nonneg {x : ℚ} (h : 0 ≤ x) : 0 ≤ round2 x := by
  unfold round2
  have h2 : (0 : ℤ) ≤ roundHalfEven (x * 100) := roundHalfEven_nonneg (by linarith)
  have h3 : (0 : ℚ) ≤ ((roundHalfEven (x * 100) : ℤ) : ℚ) := by exact_mod_cast h2
  linarith

theorem round2_div_hundred (k : ℤ) : round2 ((k : ℚ) / 100) = (k : ℚ) / 100 := by
  unfold round2
  rw [div_mul_cancel₀ ((k : ℚ)) (by norm_num : (100 : ℚ) ≠ 0), roundHalfEven_intCast]

theorem round2_grid (x : ℚ) : ∃ k : ℤ, round2 x = (k : ℚ) / 100 :=
  ⟨roundHalfEven (x * 100), rfl⟩

theorem sum_grid_div_hundred (l : List ℚ) (h : ∀ q ∈ l, ∃ k : ℤ, q = (k : ℚ) / 100) :
    ∃ K : ℤ, l.sum = (K : ℚ) / 100 := by
  induction l with
  | nil => exact ⟨0, by simp⟩
  | cons a t ih =>
    obtain ⟨k, hk⟩ := h a (List.mem_cons_self a t)
    obtain ⟨K, hK⟩ := ih (fun q hq => h q (List.mem_cons_of_mem a hq))
    refine ⟨k + K, ?_⟩
    rw [List.sum_cons, hk, hK]
    push_cast
    ring

theorem round2_sum_grid (l : List ℚ) (h : ∀ q ∈ l, ∃ k : ℤ, q = (k : ℚ) / 100) :
    round2 l.sum = l.sum := by
  obtain ⟨K, hK⟩ := sum_grid_div_hundred l h
  rw [hK, round2_div_hundred]

theorem pyOrderedInsert_perm {α : Type} (le : α → α → Bool) (a : α) (l : List α) :
    (pyOrderedInsert le a l).Perm (a :: l) := by
  induction l with
  | nil => exact List.Perm.refl _
  | cons b t ih =>
    cases hle : le a b with
    | true => simp [pyOrderedInsert, hle]
    | false =>
      have h1 : pyOrderedInsert le a (b :: t) = b :: pyOrderedInsert le a t := by
        simp [pyOrderedInsert, hle]
      rw [h1]
      exact (ih.cons b).trans (List.Perm.swap a b t)

theorem pySort_perm {α : Type} (le : α → α → Bool) (l : List α) : (pySort le l).Perm l := by
  induction l with
  | nil => exact List.Perm.refl _
  | cons a t ih =>
    exact (pyOrderedInsert_perm le a (pySort le t)).trans (ih.cons a)

theorem mem_pySort {α : Type} (le : α → α → Bool) (l : List α) (x : α) :
    x ∈ pySort le l ↔ x ∈ l :=
  (pySort_perm le l).mem_iff

theorem pySort_map_sum {α : Type} (le : α → α → Bool) (f : α → ℚ) (l : List α) :
    ((pySort le l).map f).sum = (l.map f).sum :=
  ((pySort_perm le l).map f).sum_eq

theorem pairwise_pyOrderedInsert {α : Type} (le : α → α → Bool) (a : α) (l : List α)
    (htot : ∀ x y, le x y = true ∨ le y x = true)
    (htrans : ∀ x y z, le x y = true → le y z = true → le x z = true)
    (h : l.Pairwise (fun x y => le x y = true)) :
    (pyOrderedInsert le a l).Pairwise (fun x y => le x y = true) := by
  induction l with
  | nil => simp [pyOrderedInsert]
  | cons b t ih =>
    rcases List.pairwise_cons.mp h with ⟨hb, ht⟩
    cases hle : le a b with
    | true =>
      have h1 : pyOrderedInsert le a (b :: t) = a :: b :: t := by
        simp [pyOrderedInsert, hle]
      rw [h1]
      refine List.pairwise_cons.mpr ⟨?_, h⟩
      intro x hx
      rcases List.mem_cons.mp hx with rfl | hx2
      · exact hle
      · exact htrans a b x hle (hb x hx2)
    | false =>
      have h1 : pyOrderedInsert le a (b :: t) = b :: pyOrderedInsert le a t := by
        simp [pyOrderedInsert, hle]
      rw [h1]
      refine List.pairwise_cons.mpr ⟨?_, ih ht⟩
      intro x hx
      have hx3 : x ∈ a :: t := (pyOrderedInsert_perm le a t).mem_iff.mp hx
      rcases List.mem_cons.mp hx3 with rfl | hx4
      · rcases htot x b with h2 | h2
        · rw [hle] at h2
          exact absurd h2 (by simp)
        · exact h2
      · exact hb x hx4

theorem pairwise_pySort {α : Type} (le : α → α → Bool) (l : List α)
    (htot : ∀ x y, le x y = true ∨ le y x = true)
    (htrans : ∀ x y z, le x y = true → le y z = true → le x z = true) :
    (pySort le l).Pairwise (fun x y => le x y = true) := by
  induction l with
  | nil => simp [pySort]
  | cons a t ih => exact pairwise_pyOrderedInsert le a (pySort le t) htot htrans ih

theorem ne_of_isDigit {c d : Char} (h : c.isDigit = true) (hd : d.isDigit = false) : c ≠ d := by
  intro he
  subst he
  rw [h] at hd
  exact Bool.noConfusion hd

theorem not_whitespace_of_isDigit {c : Char} (h : c.isDigit = true) :
    c.isWhitespace = false := by
  have h1 : ¬(c = ' ') := ne_of_isDigit h (by decide)
  have h2 : ¬(c = '\t') := ne_of_isDigit h (by decide)
  have h3 : ¬(c = '\r') := ne_of_isDigit h (by decide)
  have h4 : ¬(c = '\n') := ne_of_isDigit h (by decide)
  simp [Char.isWhitespace, h1, h2, h3, h4]

theorem dropWhile_ws_of_digits {l : List Char} (h : ∀ c ∈ l, c.isDigit = true) :
    l.dropWhile Char.isWhitespace = l := by
  cases l with
  | nil => rfl
  | cons c t =>
    rw [List.dropWhile_cons,
      not_whitespace_of_isDigit (h c (List.mem_cons_self c t))]
    simp

theorem dropWhile_ws_reverse_of_digits {l : List Char} (h : ∀ c ∈ l, c.isDigit = true) :
    (l.reverse.dropWhile Char.isWhitespace).reverse = l := by
  have h2 : ∀ c ∈ l.reverse, c.isDigit = true := fun c hc => h c (List.mem_reverse.mp hc)
  rw [dropWhile_ws_of_digits h2, List.reverse_reverse]

theorem parseDigitsGo_digits (l : List Char) (acc : ℕ)
    (h : ∀ c ∈ l, c.isDigit = true) :
    parseDigitsGo acc l = some (l.foldl (fun a c => 10 * a + (c.toNat - 48)) acc) := by
  induction l generalizing acc with
  | nil => rfl
  | cons c t ih =>
    have hc : c.isDigit = true := h c (List.mem_cons_self c t)
    rw [List.foldl_cons, parseDigitsGo.eq_def]
    simp only [hc, if_true]
    exact ih _ (fun d hd => h d (List.mem_cons_of_mem c hd))

theorem pyIntOfString_digits (s : String) (hne : s.data ≠ [])
    (h : ∀ c ∈ s.data, c.isDigit = true) :
    pyIntOfString? s = some ((digitsVal s.data : ℕ) : ℤ) := by
  cases hd : s.data with
  | nil => exact absurd hd hne
  | cons c t =>
    have hall : ∀ d ∈ c :: t, d.isDigit = true := by
      intro d hdm
      exact h d (by rw [hd]; exact hdm)
    have hc : c.isDigit = true := hall c (List.mem_cons_self c t)
    have htl : ∀ d ∈ t, d.isDigit = true := fun d hdm => hall d (List.mem_cons_of_mem c hdm)
    have hplus : ¬(c = '+') := ne_of_isDigit hc (by decide)
    have hminus : ¬(c = '-') := ne_of_isDigit hc (by decide)
    have hld : ((s.data.dropWhile Char.isWhitespace).reverse.dropWhile
        Char.isWhitespace).reverse = c :: t := by
      rw [hd, dropWhile_ws_of_digits hall, dropWhile_ws_reverse_of_digits hall]
    unfold pyIntOfString?
    rw [hld]
    have hcore : pyIntCore (c :: t) = (parseDigitsU (c :: t)).map (fun n => Int.ofNat n) := by
      simp only [pyIntCore, if_neg hplus, if_neg hminus]
    have hu : parseDigitsU (c :: t) = parseDigitsGo (c.toNat - 48) t := by
      simp only [parseDigitsU, if_pos hc]
    rw [hcore, hu, parseDigitsGo_digits t (c.toNat - 48) htl]
    have hv : digitsVal (c :: t) = t.foldl (fun a c => 10 * a + (c.toNat - 48)) (c.toNat - 48) := by
      unfold digitsVal
      rw [List.foldl_cons]
      norm_num
    rw [hv]
    rfl

theorem mem_publicFilter {G : Type} (streets : List (StreetRow G)) (s : StreetRow G) :
    s ∈ publicFilter streets ↔
      s ∈ streets ∧ (s.CFCC = some ("A41") ∨ s.CFCC = some ("A51")) := by
  unfold publicFilter
  rw [List.mem_filter]
  constructor
  · rintro ⟨h1, h2⟩
    simp only [Bool.and_eq_true, decide_eq_true_eq] at h2
    exact ⟨h1, h2.2⟩
  · rintro ⟨h1, h2⟩
    refine ⟨h1, ?_⟩
    have hs : s.CFCC.isSome = true := by
      rcases h2 with h | h <;> simp [h]
    simp only [Bool.and_eq_true, decide_eq_true_eq]
    exact ⟨hs, h2⟩

theorem frontageEntry_pos {G : Type} (ops : GeomOps G) (b : G) (s : StreetRow G)
    (h : ops.is_empty (ops.intersection b s.geometry) = false ∧
      0 < ops.length (ops.intersection b s.geometry)) :
    frontageEntry ops b s = some
      { street_name := streetName s
        frontage_ft := round2 (ops.length (ops.intersection b s.geometry))
        road_type := roadTypeOf s
        cfcc := cfccDisplay s.CFCC } := by
  simp only [frontageEntry]
  rw [if_pos h]

theorem frontageEntry_neg {G : Type} (ops : GeomOps G) (b : G) (s : StreetRow G)
    (h : ¬(ops.is_empty (ops.intersection b s.geometry) = false ∧
      0 < ops.length (ops.intersection b s.geometry))) :
    frontageEntry ops b s = none := by
  simp only [frontageEntry]
  rw [if_neg h]

theorem frontage_vals_eq_exact {G : Type} (ops : GeomOps G) (b : G) (l : List (StreetRow G)) :
    (l.filterMap (frontageEntry ops b)).map (fun seg => seg.frontage_ft) =
      (l.filterMap (fun street =>
        if ops.is_empty (ops.intersection b street.geometry) = false ∧
            0 < ops.length (ops.intersection b street.geometry) then
          some (ops.length (ops.intersection b street.geometry))
        else none)).map round2 := by
  induction l with
  | nil => rfl
  | cons s t ih =>
    rw [List.filterMap_cons, List.filterMap_cons]
    by_cases hc : ops.is_empty (ops.intersection b s.geometry) = false ∧
        0 < ops.length (ops.intersection b s.geometry)
    · rw [frontageEntry_pos ops b s hc, if_pos hc]
      simp only [List.map_cons]
      rw [ih]
    · rw [frontageEntry_neg ops b s hc, if_neg hc]
      exact ih

theorem frontage_sum_le {G : Type} (ops : GeomOps G) (b1 b2 : G) (l : List (StreetRow G))
    (hm : ∀ s ∈ l, ops.length (ops.intersection b1 s.geometry) ≤
      ops.length (ops.intersection b2 s.geometry))
    (hnn : ∀ s ∈ l, 0 ≤ ops.length (ops.intersection b2 s.geometry))
    (hne : ∀ s ∈ l, 0 < ops.length (ops.intersection b2 s.geometry) →
      ops.is_empty (ops.intersection b2 s.geometry) = false) :
    ((l.filterMap (frontageEntry ops b1)).map (fun seg => seg.frontage_ft)).sum ≤
      ((l.filterMap (frontageEntry ops b2)).map (fun seg => seg.frontage_ft)).sum := by
  induction l with
  | nil => exact le_refl _
  | cons s t ih =>
    have hms := hm s (List.mem_cons_self s t)
    have hnns := hnn s (List.mem_cons_self s t)
    have hnes := hne s (List.mem_cons_self s t)
    have ih2 := ih (fun x hx => hm x (List.mem_cons_of_mem s hx))
      (fun x hx => hnn x (List.mem_cons_of_mem s hx))
      (fun x hx => hne x (List.mem_cons_of_mem s hx))
    rw [List.filterMap_cons, List.filterMap_cons]
    by_cases h1 : ops.is_empty (ops.intersection b1 s.geometry) = false ∧
        0 < ops.length (ops.intersection b1 s.geometry)
    · have hpos2 : 0 < ops.length (ops.intersection b2 s.geometry) :=
        lt_of_lt_of_le h1.2 hms
      have h2 : ops.is_empty (ops.intersection b2 s.geometry) = false ∧
          0 < ops.length (ops.intersection b2 s.geometry) := ⟨hnes hpos2, hpos2⟩
      rw [frontageEntry_pos ops b1 s h1, frontageEntry_pos ops b2 s h2]
      simp only [List.map_cons, List.sum_cons]
      exact add_le_add (round2_mono hms) ih2
    · rw [frontageEntry_neg ops b1 s h1]
      by_cases h2 : ops.is_empty (ops.intersection b2 s.geometry) = false ∧
          0 < ops.length (ops.intersection b2 s.geometry)
      · rw [frontageEntry_pos ops b2 s h2]
        simp only [List.map_cons, List.sum_cons]
        have h3 : 0 ≤ round2 (ops.length (ops.intersection b2 s.geometry)) :=
          round2_nonneg hnns
        linarith
      · rw [frontageEntry_neg ops b2 s h2]
        exact ih2

theorem sorted_sortByDistanceAsc (l : List NearbyRoad) :
    List.Sorted (fun a b : NearbyRoad => a.distance_ft ≤ b.distance_ft)
      (sortByDistanceAsc l) := by
  unfold sortByDistanceAsc
  have hp := pairwise_pySort (fun a b : NearbyRoad => decide (a.distance_ft ≤ b.distance_ft)) l
    (fun x y => by
      rcases le_total x.distance_ft y.distance_ft with h | h
      · exact Or.inl (decide_eq_true h)
      · exact Or.inr (decide_eq_true h))
    (fun x y z hxy hyz =>
      decide_eq_true (le_trans (of_decide_eq_true hxy) (of_decide_eq_true hyz)))
  exact hp.imp (fun hab => of_decide_eq_true hab)

theorem sorted_get_nearby {G : Type} (ops : GeomOps G) (streets : List (StreetRow G))
    (g : G) (d : ℚ) :
    List.Sorted (fun a b : NearbyRoad => a.distance_ft ≤ b.distance_ft)
      (get_nearby_streets ops streets g d) := by
  unfold get_nearby_streets
  exact sorted_sortByDistanceAsc _

/-!
Claim theorems.
-/

/-- C1 counterexample: the claim says a non-parseable residue is passed through
unchanged, so `normalize("ABC")` would be `"ABC"`; the code instead raises
`ValueError` from `int("ABC")` (modelled as `none`), so the result is not
`some "ABC"`. -/
theorem C1_counterexample :
    normalize_parcel_id ("ABC") = none ∧ normalize_parcel_id ("ABC") ≠ some ("ABC") :=
  ⟨rfl, by decide⟩

/-- C1 amended: when the residue after trimming, uppercasing and dropping a
single leading R is not parseable as a base-10 integer, `normalize_parcel_id`
raises `ValueError` (modelled as `none`); it does not return the
trimmed/uppercased string unchanged. -/
theorem C1_theorem (s : String) (h : pyIntOfString? (normalizeResidue s) = none) :
    normalize_parcel_id s = none := by
  unfold normalize_parcel_id
  rw [h]
  rfl

/-- C1 witness: the hypothesis holds at "ABC" and the amended conclusion follows. -/
theorem C1_witness :
    pyIntOfString? (normalizeResidue ("ABC")) = none ∧ normalize_parcel_id ("ABC") = none :=
  ⟨rfl, C1_theorem ("ABC") rfl⟩

/-- C2: when the residue after trimming, uppercasing and dropping a single
leading R consists of base-10 digits, `normalize_parcel_id` returns that
numeral re-rendered without leading zeros (`toString` of its value; `toString`
of an integer is the canonical zero-free decimal rendering), and in particular
`normalize("R007") = "7"`, `normalize("r000123") = "123"`,
`normalize(" r42 ") = "42"`.  Determinism and side-effect freedom are inherent
to the embedding: the source function reads no mutable state. -/
theorem C2_theorem (s : String) (hne : (normalizeResidue s).data ≠ [])
    (hd : ∀ c ∈ (normalizeResidue s).data, c.isDigit = true) :
    normalize_parcel_id s = some (toString ((digitsVal (normalizeResidue s).data : ℕ) : ℤ))
    ∧ normalize_parcel_id ("R007") = some ("7")
    ∧ normalize_parcel_id ("r000123") = some ("123")
    ∧ normalize_parcel_id (" r42 ") = some ("42") := by
  refine ⟨?_, rfl, rfl, rfl⟩
  unfold normalize_parcel_id
  rw [pyIntOfString_digits _ hne hd]
  rfl

/-- C2 witness: the hypotheses hold at "R007" and the conclusion follows. -/
theorem C2_witness :
    ((normalizeResidue ("R007")).data ≠ []
      ∧ (∀ c ∈ (normalizeResidue ("R007")).data, c.isDigit = true))
    ∧ normalize_parcel_id ("R007")
        = some (toString ((digitsVal (normalizeResidue ("R007")).data : ℕ) : ℤ)) :=
  ⟨⟨by decide, by decide⟩, (C2_theorem ("R007") (by decide) (by decide)).1⟩

/-- C3 counterexample: at tolerance exactly 0 the code still buffers the
boundary (`boundary.buffer(0)`), and a zero-width buffer of a curve is empty,
so the resolver returns no segments even though the raw boundary's exact line
intersection with EDGE RD has positive length 100. -/
theorem C3_counterexample :
    calculate_frontage_with_tolerance demoOps c3Streets DemoG.gParcel 0 false = []
    ∧ demoOps.length (demoOps.intersection (demoOps.boundary DemoG.gParcel)
        streetD.geometry) = 100
    ∧ (0 : ℚ) < 100 := by
  refine ⟨?_, rfl, by norm_num⟩
  have hE : ∀ s ∈ c3Streets,
      demoOps.is_empty (demoOps.intersection (demoOps.buffer
        (demoOps.boundary DemoG.gParcel) 0) s.geometry) = true := by
    intro s hs
    rw [List.mem_singleton.mp hs]
    rfl
  simp only [calculate_frontage_with_tolerance, sortByFrontageDesc]
  rw [show (if false = true then c3Streets else publicFilter c3Streets)
    = publicFilter c3Streets from rfl]
  rw [List.filterMap_eq_nil_iff.mpr ?_]
  · rfl
  · intro s hs
    have hsm : s ∈ c3Streets := List.mem_of_mem_filter hs
    exact frontageEntry_neg demoOps _ s (by rw [hE s hsm]; simp)

/-- C3 amended: the resolver never special-cases tolerance 0; it always buffers
the boundary by the tolerance.  Given the geometry library's semantics that
every intersection with the zero-buffered boundary is empty (shapely's
zero-width buffer of a curve is the empty polygon), the resolver at tolerance 0
returns no segments at all, so a street running along the boundary contributes
no frontage. -/
theorem C3_theorem {G : Type} (ops : GeomOps G) (streets : List (StreetRow G))
    (g : G) (ip : Bool)
    (hE : ∀ s ∈ streets, ops.is_empty (ops.intersection
      (ops.buffer (ops.boundary g) 0) s.geometry) = true) :
    calculate_frontage_with_tolerance ops streets g 0 ip = [] := by
  simp only [calculate_frontage_with_tolerance, sortByFrontageDesc]
  have hnil : (if ip then streets else publicFilter streets).filterMap
      (frontageEntry ops (ops.buffer (ops.boundary g) 0)) = [] := by
    rw [List.filterMap_eq_nil_iff]
    intro s hs
    have hsm : s ∈ streets := by
      cases ip with
      | true => simpa using hs
      | false => exact ((mem_publicFilter streets s).mp (by simpa using hs)).1
    exact frontageEntry_neg ops _ s (by rw [hE s hsm]; simp)
  rw [hnil]
  rfl

/-- C3 witness: the emptiness hypothesis holds in the demo scene (EDGE RD runs
along the boundary) and the amended conclusion follows. -/
theorem C3_witness :
    (∀ s ∈ c3Streets, demoOps.is_empty (demoOps.intersection
      (demoOps.buffer (demoOps.boundary DemoG.gParcel) 0) s.geometry) = true)
    ∧ calculate_frontage_with_tolerance demoOps c3Streets DemoG.gParcel 0 false = [] := by
  have hE : ∀ s ∈ c3Streets, demoOps.is_empty (demoOps.intersection
      (demoOps.buffer (demoOps.boundary DemoG.gParcel) 0) s.geometry) = true := by
    intro s hs
    rw [List.mem_singleton.mp hs]
    rfl
  exact ⟨hE, C3_theorem demoOps c3Streets DemoG.gParcel false hE⟩

theorem round2_130 : round2 (130 : ℚ) = 130 := by
  rw [round2_lo 130 13000 (by norm_num) (by norm_num)]
  norm_num

theorem round2_sliver : round2 (1/250 : ℚ) = 0 := by
  rw [round2_lo (1/250) 0 (by norm_num) (by norm_num)]
  norm_num

theorem round2_two_slivers : round2 (1/125 : ℚ) = 1/100 := by
  rw [round2_hi (1/125) 0 (by norm_num) (by norm_num)]
  norm_num

theorem round2_100 : round2 (100 : ℚ) = 100 := by
  rw [round2_lo 100 10000 (by norm_num) (by norm_num)]
  norm_num

theorem demo_buffer_30 :
    demoOps.buffer (demoOps.boundary DemoG.gParcel) 30 = DemoG.gBand 30 := rfl

theorem demo_entry_A :
    frontageEntry demoOps (DemoG.gBand 30) streetA = some
      { street_name := "MAIN ST", frontage_ft := 130, road_type := "Local Road",
        cfcc := "A51" } := by
  have hpos : demoOps.is_empty (demoOps.intersection (DemoG.gBand 30) streetA.geometry) = false ∧
      0 < demoOps.length (demoOps.intersection (DemoG.gBand 30) streetA.geometry) := by
    constructor
    · rfl
    · show (0 : ℚ) < demoLength (demoIntersection (DemoG.gBand 30) DemoG.gA)
      norm_num [demoIntersection, demoLength]
  rw [frontageEntry_pos demoOps _ streetA hpos]
  have harg : demoOps.length (demoOps.intersection (DemoG.gBand 30) streetA.geometry)
      = (130 : ℚ) := by
    show demoLength (demoIntersection (DemoG.gBand 30) DemoG.gA) = 130
    norm_num [demoIntersection, demoLength]
  rw [harg, round2_130]
  have hname : streetName streetA = "MAIN ST" := by decide
  have htype : roadTypeOf streetA = "Local Road" := by decide
  have hcfcc : cfccDisplay streetA.CFCC = "A51" := by decide
  rw [hname, htype, hcfcc]

/-- C6: with a fixed parcel geometry and tolerance, every segment returned with
`include_private = false` is also returned with `include_private = true`; the
public filter retains exactly the rows whose CFCC is A41 or A51, and a row with
a null (missing) CFCC is never in the public filter, so it is considered only
when `include_private = true` (where the unfiltered street table is used). -/
theorem C6_theorem {G : Type} (ops : GeomOps G) (streets : List (StreetRow G))
    (g : G) (t : ℚ) :
    (∀ seg, seg ∈ calculate_frontage_with_tolerance ops streets g t false →
       seg ∈ calculate_frontage_with_tolerance ops streets g t true)
    ∧ (∀ s, s ∈ publicFilter streets ↔
         s ∈ streets ∧ (s.CFCC = some ("A41") ∨ s.CFCC = some ("A51")))
    ∧ (∀ s, s ∈ streets → s.CFCC = none → s ∉ publicFilter streets) := by
  refine ⟨?_, fun s => mem_publicFilter streets s, ?_⟩
  · intro seg h
    simp only [calculate_frontage_with_tolerance, sortByFrontageDesc] at h ⊢
    rw [mem_pySort] at h ⊢
    rw [List.mem_filterMap] at h ⊢
    obtain ⟨s, hs, hentry⟩ := h
    have hs2 : s ∈ publicFilter streets := by simpa using hs
    refine ⟨s, ?_, hentry⟩
    have hmem := ((mem_publicFilter streets s).mp hs2).1
    simpa using hmem
  · intro s _ hnone hpf
    have h2 := ((mem_publicFilter streets s).mp hpf).2
    rcases h2 with h | h <;> (rw [hnone] at h; exact Option.noConfusion h)

/-- C6 witness: the MAIN ST segment produced at tolerance 30 with
`include_private = false` is also in the `include_private = true` result. -/
theorem C6_witness :
    ({ street_name := "MAIN ST"
       frontage_ft := 130
       road_type := "Local Road"
       cfcc := "A51" } : FrontageSeg)
      ∈ calculate_frontage_with_tolerance demoOps demoStreets DemoG.gParcel 30 true := by
  apply (C6_theorem demoOps demoStreets DemoG.gParcel 30).1
  simp only [calculate_frontage_with_tolerance, sortByFrontageDesc]
  rw [mem_pySort, List.mem_filterMap]
  refine ⟨streetA, ?_, ?_⟩
  · show streetA ∈ (if (false : Bool) = true then demoStreets else publicFilter demoStreets)
    decide
  · rw [demo_buffer_30]
    exact demo_entry_A

/-- C5: for a fixed parcel geometry, street table and `include_private` flag,
and tolerances `0 ≤ t1 < t2`, the resolver's total frontage at `t1` is at most
its total at `t2`, and likewise after the endpoint's final 2-decimal rounding.
The geometric facts the code relies on enter as hypotheses about the external
geometry library: intersection length with the buffered boundary is monotone in
the buffer radius, lengths are non-negative, and a geometry of positive length
is non-empty. -/
theorem C5_theorem {G : Type} (ops : GeomOps G) (streets : List (StreetRow G))
    (g : G) (t1 t2 : ℚ) (ip : Bool)
    (h0 : 0 ≤ t1) (h12 : t1 < t2)
    (hmono : ∀ s ∈ streets,
      ops.length (ops.intersection (ops.buffer (ops.boundary g) t1) s.geometry)
        ≤ ops.length (ops.intersection (ops.buffer (ops.boundary g) t2) s.geometry))
    (hnn : ∀ s ∈ streets,
      0 ≤ ops.length (ops.intersection (ops.buffer (ops.boundary g) t2) s.geometry))
    (hne : ∀ s ∈ streets,
      0 < ops.length (ops.intersection (ops.buffer (ops.boundary g) t2) s.geometry) →
        ops.is_empty (ops.intersection (ops.buffer (ops.boundary g) t2) s.geometry) = false) :
    ((calculate_frontage_with_tolerance ops streets g t1 ip).map
        (fun seg => seg.frontage_ft)).sum
      ≤ ((calculate_frontage_with_tolerance ops streets g t2 ip).map
        (fun seg => seg.frontage_ft)).sum
    ∧ round2 ((calculate_frontage_with_tolerance ops streets g t1 ip).map
        (fun seg => seg.frontage_ft)).sum
      ≤ round2 ((calculate_frontage_with_tolerance ops streets g t2 ip).map
        (fun seg => seg.frontage_ft)).sum := by
  have hLsub : ∀ s, s ∈ (if ip then streets else publicFilter streets) → s ∈ streets := by
    intro s hs
    cases ip with
    | true => simpa using hs
    | false => exact ((mem_publicFilter streets s).mp (by simpa using hs)).1
  have key : ((calculate_frontage_with_tolerance ops streets g t1 ip).map
      (fun seg => seg.frontage_ft)).sum
      ≤ ((calculate_frontage_with_tolerance ops streets g t2 ip).map
      (fun seg => seg.frontage_ft)).sum := by
    simp only [calculate_frontage_with_tolerance, sortByFrontageDesc]
    rw [pySort_map_sum, pySort_map_sum]
    exact frontage_sum_le ops _ _ _
      (fun s hs => hmono s (hLsub s hs))
      (fun s hs => hnn s (hLsub s hs))
      (fun s hs => hne s (hLsub s hs))
  exact ⟨key, round2_mono key⟩

/-- C5 witness: in the demo scene, with tolerances 30 and 100, public roads
only, the geometric hypotheses hold and the totals are monotone. -/
theorem C5_witness :
    ((calculate_frontage_with_tolerance demoOps demoStreets DemoG.gParcel 30 false).map
        (fun seg => seg.frontage_ft)).sum
      ≤ ((calculate_frontage_with_tolerance demoOps demoStreets DemoG.gParcel 100 false).map
        (fun seg => seg.frontage_ft)).sum
    ∧ round2 ((calculate_frontage_with_tolerance demoOps demoStreets DemoG.gParcel 30 false).map
        (fun seg => seg.frontage_ft)).sum
      ≤ round2 ((calculate_frontage_with_tolerance demoOps demoStreets DemoG.gParcel 100 false).map
        (fun seg => seg.frontage_ft)).sum := by
  refine C5_theorem demoOps demoStreets DemoG.gParcel 30 100 false (by norm_num) (by norm_num)
    ?_ ?_ ?_ <;>
  · intro s hs
    simp only [demoStreets, List.mem_cons, List.not_mem_nil, or_false] at hs
    rcases hs with rfl | rfl | rfl <;>
      norm_num [demoOps, demoBuffer, demoBoundary, demoIntersection, demoLength,
        demoIsEmpty, streetA, streetB, streetC]

theorem demo_entry_noName :
    frontageEntry demoOps (DemoG.gBand 30) streetNoName = some
      { street_name := ""
        frontage_ft := 100
        road_type := "Local Road"
        cfcc := "A51" } := by
  have hpos : demoOps.is_empty (demoOps.intersection (DemoG.gBand 30)
        streetNoName.geometry) = false ∧
      0 < demoOps.length (demoOps.intersection (DemoG.gBand 30) streetNoName.geometry) := by
    constructor
    · rfl
    · show (0 : ℚ) < demoLength (demoIntersection (DemoG.gBand 30) DemoG.gD)
      norm_num [demoIntersection, demoLength]
  rw [frontageEntry_pos demoOps _ streetNoName hpos]
  have harg : demoOps.length (demoOps.intersection (DemoG.gBand 30)
      streetNoName.geometry) = (100 : ℚ) := rfl
  rw [harg, round2_100]
  have hname : streetName streetNoName = "" := by decide
  have htype : roadTypeOf streetNoName = "Local Road" := by decide
  have hcfcc : cfccDisplay streetNoName.CFCC = "A51" := by decide
  rw [hname, htype, hcfcc]

/-- C7 counterexample: a street row with all name parts empty produces a
returned segment whose display name is the empty string, not "Unnamed Road"
(no such fallback exists in the code); and a row with an empty middle part
keeps the interior double space ("N  ST"), instead of skipping empty parts
("N ST"). -/
theorem C7_counterexample :
    calculate_frontage_with_tolerance demoOps c7Streets DemoG.gParcel 30 false
      = [{ street_name := ""
           frontage_ft := 100
           road_type := "Local Road"
           cfcc := "A51" }]
    ∧ ("" : String) ≠ "Unnamed Road"
    ∧ streetName streetNST = "N  ST"
    ∧ ("N  ST" : String) ≠ "N ST" := by
  refine ⟨?_, by decide, by decide, by decide⟩
  simp only [calculate_frontage_with_tolerance, sortByFrontageDesc]
  rw [demo_buffer_30]
  rw [show (if (false : Bool) = true then c7Streets else publicFilter c7Streets)
    = [streetNoName] from by decide]
  rw [List.filterMap_cons, demo_entry_noName]
  rfl

/-- C7 amended: every returned segment's display name is the four name fields
joined with single spaces and stripped of leading/trailing whitespace only;
empty parts are not skipped (interior runs of spaces remain), and an empty
assembled name is returned as the empty string - there is no "Unnamed Road"
fallback. -/
theorem C7_theorem {G : Type} (ops : GeomOps G) (streets : List (StreetRow G)) (g : G)
    (t : ℚ) (ip : Bool) (seg : FrontageSeg)
    (h : seg ∈ calculate_frontage_with_tolerance ops streets g t ip) :
    seg.street_name ∈ streets.map (fun s =>
      pyStrip (s.FEDIRP ++ " " ++ s.FENAME ++ " " ++ s.FETYPE ++ " " ++ s.FEDIRS)) := by
  simp only [calculate_frontage_with_tolerance, sortByFrontageDesc] at h
  rw [mem_pySort, List.mem_filterMap] at h
  obtain ⟨s, hs, hentry⟩ := h
  have hsm : s ∈ streets := by
    cases ip with
    | true => simpa using hs
    | false => exact ((mem_publicFilter streets s).mp (by simpa using hs)).1
  rw [List.mem_map]
  refine ⟨s, hsm, ?_⟩
  by_cases hc : ops.is_empty (ops.intersection (ops.buffer (ops.boundary g) t)
      s.geometry) = false ∧
      0 < ops.length (ops.intersection (ops.buffer (ops.boundary g) t) s.geometry)
  · rw [frontageEntry_pos ops _ s hc] at hentry
    have h2 := Option.some.inj hentry
    rw [← h2]
    rfl
  · rw [frontageEntry_neg ops _ s hc] at hentry
    exact Option.noConfusion hentry

/-- C7 witness: the empty-named segment of the demo scene is returned, and its
display name is the stripped space-join of the street row's name fields. -/
theorem C7_witness :
    ("" : String) ∈ c7Streets.map (fun s =>
      pyStrip (s.FEDIRP ++ " " ++ s.FENAME ++ " " ++ s.FETYPE ++ " " ++ s.FEDIRS)) := by
  have h : ({ street_name := ""
              frontage_ft := 100
              road_type := "Local Road"
              cfcc := "A51" } : FrontageSeg)
      ∈ calculate_frontage_with_tolerance demoOps c7Streets DemoG.gParcel 30 false := by
    simp only [calculate_frontage_with_tolerance, sortByFrontageDesc]
    rw [mem_pySort, List.mem_filterMap]
    refine ⟨streetNoName, ?_, ?_⟩
    · show streetNoName ∈ (if (false : Bool) = true then c7Streets else publicFilter c7Streets)
      decide
    · rw [demo_buffer_30]
      exact demo_entry_noName
  exact C7_theorem demoOps c7Streets DemoG.gParcel 30 false _ h

/-- C8 counterexample: for the request body `{"parcel_id": "ABC"}` - an
identifier absent from the dataset - both handlers raise `ValueError` inside
`normalize_parcel_id` (modelled `.error ()`, an HTTP 500) instead of returning
the 404 not-found shape. -/
theorem C8_counterexample :
    calculate_frontage demoOps demoParcels demoStreets (some ("ABC")) 30 false = .error ()
    ∧ analyze_parcel demoOps demoParcels demoStreets (some ("ABC")) = .error ()
    ∧ demoParcels.find? (fun p => decide (p.PROP_ID = "ABC")) = none :=
  ⟨rfl, rfl, rfl⟩

/-- C8 amended: for every non-empty parcel identifier whose residue parses as a
base-10 integer (so normalization succeeds) and whose normalized id matches no
parcel, both endpoints return the not-found shape carrying the raw and the
normalized id; when normalization fails, the handlers instead propagate the
exception. -/
theorem C8_theorem {G : Type} (ops : GeomOps G) (parcels : List (ParcelRow G))
    (streets : List (StreetRow G)) (pid nid : String) (tol : ℚ) (ip : Bool)
    (h0 : ¬(pid = ""))
    (hn : normalize_parcel_id pid = some nid)
    (hf : parcels.find? (fun p => decide (p.PROP_ID = nid)) = none) :
    calculate_frontage ops parcels streets (some pid) tol ip = .ok (.notFound pid nid)
    ∧ analyze_parcel ops parcels streets (some pid) = .ok (.notFound pid nid) := by
  constructor
  · simp only [calculate_frontage, if_neg h0, hn, hf]
  · simp only [analyze_parcel, if_neg h0, hn, hf]

/-- C8 witness: "R999999" normalizes to "999999", matches no parcel in the demo
dataset, and both endpoints return the not-found shape. -/
theorem C8_witness :
    ¬(("R999999" : String) = "")
    ∧ normalize_parcel_id ("R999999") = some ("999999")
    ∧ demoParcels.find? (fun p => decide (p.PROP_ID = "999999")) = none
    ∧ calculate_frontage demoOps demoParcels demoStreets (some ("R999999")) 30 false
        = .ok (.notFound ("R999999") ("999999"))
    ∧ analyze_parcel demoOps demoParcels demoStreets (some ("R999999"))
        = .ok (.notFound ("R999999") ("999999")) := by
  have h := C8_theorem demoOps demoParcels demoStreets ("R999999") ("999999") 30 false
    (by decide) rfl rfl
  exact ⟨by decide, rfl, rfl, h.1, h.2⟩

/-- C9: for every successfully analyzed parcel, the nearby-roads inventory in
the response is the distance-sorted list truncated to at most 20 entries
(sorted ascending by the reported point-to-polygon distance), and the
nearest-road summaries are `none` rather than an error when the relevant
candidate set is empty. -/
theorem C9_theorem {G : Type} (ops : GeomOps G) (parcels : List (ParcelRow G))
    (streets : List (StreetRow G)) (pid nid : String) (p : ParcelRow G)
    (r : AnalyzeResponse)
    (h0 : ¬(pid = ""))
    (hn : normalize_parcel_id pid = some nid)
    (hp : parcels.find? (fun q => decide (q.PROP_ID = nid)) = some p)
    (hr : analyze_parcel ops parcels streets (some pid) = .ok (.ok r)) :
    r.nearby_roads.roads = (get_nearby_streets ops streets p.geometry 1000).take 20
    ∧ r.nearby_roads.roads.length ≤ 20
    ∧ List.Sorted (fun a b : NearbyRoad => a.distance_ft ≤ b.distance_ft) r.nearby_roads.roads
    ∧ ((get_nearby_streets ops streets p.geometry 1000).filter (fun x =>
          decide (x.road_type = "Secondary Highway" ∨ x.road_type = "Local Road")) = [] →
        r.llm_context.nearest_public_road_distance = none)
    ∧ (get_nearby_streets ops streets p.geometry 1000 = [] →
        r.llm_context.nearest_any_road_distance = none) := by
  simp only [analyze_parcel, if_neg h0, hn, hp, Except.ok.injEq, AnalyzeResult.ok.injEq] at hr
  subst hr
  refine ⟨rfl, ?_, ?_, ?_, ?_⟩
  · show ((get_nearby_streets ops streets p.geometry 1000).take 20).length ≤ 20
    rw [List.length_take]
    exact min_le_left _ _
  · show List.Sorted (fun a b : NearbyRoad => a.distance_ft ≤ b.distance_ft)
      ((get_nearby_streets ops streets p.geometry 1000).take 20)
    exact List.Pairwise.sublist (List.take_sublist _ _)
      (sorted_get_nearby ops streets p.geometry 1000)
  · intro hE
    show (((get_nearby_streets ops streets p.geometry 1000).filter (fun x =>
      decide (x.road_type = "Secondary Highway" ∨ x.road_type = "Local Road"))).map
      (fun x => x.distance_ft)).min? = none
    rw [hE]
    rfl
  · intro hE
    show (if (get_nearby_streets ops streets p.geometry 1000).isEmpty then none
      else ((get_nearby_streets ops streets p.geometry 1000).map
        (fun x => x.distance_ft)).min?) = none
    rw [hE]
    rfl

/-- C9 witness: the hypotheses hold in the demo scene for parcel id "R1" and
the conclusions follow for its analyze response. -/
theorem C9_witness :
    c9Resp.nearby_roads.roads
        = (get_nearby_streets demoOps demoStreets demoParcel.geometry 1000).take 20
    ∧ c9Resp.nearby_roads.roads.length ≤ 20
    ∧ List.Sorted (fun a b : NearbyRoad => a.distance_ft ≤ b.distance_ft)
        c9Resp.nearby_roads.roads
    ∧ ((get_nearby_streets demoOps demoStreets demoParcel.geometry 1000).filter (fun x =>
          decide (x.road_type = "Secondary Highway" ∨ x.road_type = "Local Road")) = [] →
        c9Resp.llm_context.nearest_public_road_distance = none)
    ∧ (get_nearby_streets demoOps demoStreets demoParcel.geometry 1000 = [] →
        c9Resp.llm_context.nearest_any_road_distance = none) :=
  C9_theorem demoOps demoParcels demoStreets ("R1") ("1") demoParcel c9Resp
    (by decide) rfl rfl rfl

theorem demo_entry_T :
    frontageEntry demoOps (DemoG.gBand 30) streetT = some
      { street_name := "TINY LN"
        frontage_ft := 0
        road_type := "Local Road"
        cfcc := "A51" } := by
  have hpos : demoOps.is_empty (demoOps.intersection (DemoG.gBand 30)
        streetT.geometry) = false ∧
      0 < demoOps.length (demoOps.intersection (DemoG.gBand 30) streetT.geometry) := by
    constructor
    · rfl
    · show (0 : ℚ) < demoLength (demoIntersection (DemoG.gBand 30) DemoG.gT)
      norm_num [demoIntersection, demoLength]
  rw [frontageEntry_pos demoOps _ streetT hpos]
  have harg : demoOps.length (demoOps.intersection (DemoG.gBand 30)
      streetT.geometry) = (1/250 : ℚ) := by
    show demoLength (demoIntersection (DemoG.gBand 30) DemoG.gT) = 1/250
    norm_num [demoIntersection, demoLength]
  rw [harg, round2_sliver]
  have hname : streetName streetT = "TINY LN" := by decide
  have htype : roadTypeOf streetT = "Local Road" := by decide
  have hcfcc : cfccDisplay streetT.CFCC = "A51" := by decide
  rw [hname, htype, hcfcc]

theorem demo_entry_T2 :
    frontageEntry demoOps (DemoG.gBand 30) streetT2 = some
      { street_name := "TINY2 LN"
        frontage_ft := 0
        road_type := "Local Road"
        cfcc := "A51" } := by
  have hpos : demoOps.is_empty (demoOps.intersection (DemoG.gBand 30)
        streetT2.geometry) = false ∧
      0 < demoOps.length (demoOps.intersection (DemoG.gBand 30) streetT2.geometry) := by
    constructor
    · rfl
    · show (0 : ℚ) < demoLength (demoIntersection (DemoG.gBand 30) DemoG.gT2)
      norm_num [demoIntersection, demoLength]
  rw [frontageEntry_pos demoOps _ streetT2 hpos]
  have harg : demoOps.length (demoOps.intersection (DemoG.gBand 30)
      streetT2.geometry) = (1/250 : ℚ) := by
    show demoLength (demoIntersection (DemoG.gBand 30) DemoG.gT2) = 1/250
    norm_num [demoIntersection, demoLength]
  rw [harg, round2_sliver]
  have hname : streetName streetT2 = "TINY2 LN" := by decide
  have htype : roadTypeOf streetT2 = "Local Road" := by decide
  have hcfcc : cfccDisplay streetT2.CFCC = "A51" := by decide
  rw [hname, htype, hcfcc]

theorem demo_calc_c4 :
    calculate_frontage_with_tolerance demoOps c4Streets DemoG.gParcel 30 false
      = [{ street_name := "TINY LN"
           frontage_ft := 0
           road_type := "Local Road"
           cfcc := "A51" },
         { street_name := "TINY2 LN"
           frontage_ft := 0
           road_type := "Local Road"
           cfcc := "A51" }] := by
  simp only [calculate_frontage_with_tolerance, sortByFrontageDesc]
  rw [demo_buffer_30]
  rw [show (if (false : Bool) = true then c4Streets else publicFilter c4Streets)
    = [streetT, streetT2] from by decide]
  rw [List.filterMap_cons, List.filterMap_cons, List.filterMap_nil, demo_entry_T, demo_entry_T2]
  rfl

theorem demo_exact_c4 :
    exactIntersectionLengths demoOps c4Streets DemoG.gParcel 30 false = [1/250, 1/250] := by
  simp only [exactIntersectionLengths]
  rw [demo_buffer_30]
  rw [show (if (false : Bool) = true then c4Streets else publicFilter c4Streets)
    = [streetT, streetT2] from by decide]
  rw [List.filterMap_cons, List.filterMap_cons, List.filterMap_nil]
  norm_num [demoOps, demoIntersection, demoLength, demoIsEmpty, streetT, streetT2]

/-- C4 counterexample: with two streets whose exact intersection lengths are
0.004 ft each, the endpoint reports total_frontage_ft = 0 (it sums per-segment
rounded values), while the spec's "round once at the boundary" total would be
round2(0.008) = 0.01.  Rounding is applied per segment before summation, so the
claim fails. -/
theorem C4_counterexample :
    calculate_frontage demoOps demoParcels c4Streets (some ("R1")) 30 false
      = .ok (.ok c4Resp)
    ∧ c4Resp.total_frontage_ft = 0
    ∧ specTotalRoundedOnce demoOps c4Streets DemoG.gParcel 30 false = 1/100
    ∧ c4Resp.total_frontage_ft
        ≠ specTotalRoundedOnce demoOps c4Streets DemoG.gParcel 30 false := by
  have htot : c4Resp.total_frontage_ft = 0 := by
    show round2 (((calculate_frontage_with_tolerance demoOps c4Streets DemoG.gParcel
      30 false).map (fun r => r.frontage_ft)).sum) = 0
    rw [demo_calc_c4]
    norm_num [round2_zero]
  have hspec : specTotalRoundedOnce demoOps c4Streets DemoG.gParcel 30 false = 1/100 := by
    simp only [specTotalRoundedOnce]
    rw [demo_exact_c4]
    norm_num [round2_two_slivers]
  refine ⟨rfl, htot, hspec, ?_⟩
  rw [htot, hspec]
  norm_num

/-- C4 amended: for every successful `/calculate-frontage` response, the
reported roads are the resolver output; the multiset of reported per-segment
`frontage_ft` values is exactly the per-segment 2-decimal roundings of the
exact intersection lengths (rounding is applied to each segment before
summation); and the reported total equals the sum of those per-segment rounded
values - the final boundary rounding is a no-op on that sum. -/
theorem C4_theorem {G : Type} (ops : GeomOps G) (parcels : List (ParcelRow G))
    (streets : List (StreetRow G)) (pid nid : String) (tol : ℚ) (ip : Bool)
    (p : ParcelRow G) (r : FrontageResponse)
    (h0 : ¬(pid = ""))
    (hn : normalize_parcel_id pid = some nid)
    (hp : parcels.find? (fun q => decide (q.PROP_ID = nid)) = some p)
    (hr : calculate_frontage ops parcels streets (some pid) tol ip = .ok (.ok r)) :
    r.roads = calculate_frontage_with_tolerance ops streets p.geometry tol ip
    ∧ (r.roads.map (fun seg => seg.frontage_ft)).Perm
        ((exactIntersectionLengths ops streets p.geometry tol ip).map round2)
    ∧ r.total_frontage_ft
        = ((exactIntersectionLengths ops streets p.geometry tol ip).map round2).sum
    ∧ r.total_frontage_ft = (r.roads.map (fun seg => seg.frontage_ft)).sum := by
  simp only [calculate_frontage, if_neg h0, hn, hp, Except.ok.injEq,
    FrontageResult.ok.injEq] at hr
  subst hr
  have hvals : ((calculate_frontage_with_tolerance ops streets p.geometry tol ip).map
      (fun seg => seg.frontage_ft)).Perm
      ((exactIntersectionLengths ops streets p.geometry tol ip).map round2) := by
    simp only [calculate_frontage_with_tolerance, exactIntersectionLengths, sortByFrontageDesc]
    refine ((pySort_perm _ _).map _).trans ?_
    rw [frontage_vals_eq_exact]
  have hsum : ((calculate_frontage_with_tolerance ops streets p.geometry tol ip).map
      (fun seg => seg.frontage_ft)).sum
      = ((exactIntersectionLengths ops streets p.geometry tol ip).map round2).sum :=
    hvals.sum_eq
  have hgrid : round2 (((exactIntersectionLengths ops streets p.geometry tol ip).map
      round2).sum)
      = ((exactIntersectionLengths ops streets p.geometry tol ip).map round2).sum := by
    apply round2_sum_grid
    intro q hq
    rw [List.mem_map] at hq
    obtain ⟨x, _, hx⟩ := hq
    exact hx ▸ round2_grid x
  refine ⟨rfl, hvals, ?_, ?_⟩
  · show round2 (((calculate_frontage_with_tolerance ops streets p.geometry tol ip).map
      (fun seg => seg.frontage_ft)).sum)
      = ((exactIntersectionLengths ops streets p.geometry tol ip).map round2).sum
    rw [hsum, hgrid]
  · show round2 (((calculate_frontage_with_tolerance ops streets p.geometry tol ip).map
      (fun seg => seg.frontage_ft)).sum)
      = ((calculate_frontage_with_tolerance ops streets p.geometry tol ip).map
      (fun seg => seg.frontage_ft)).sum
    rw [hsum, hgrid]

/-- C4 witness: the hypotheses hold in the sliver scene and the amended
conclusions follow for its response. -/
theorem C4_witness :
    c4Resp.roads = calculate_frontage_with_tolerance demoOps c4Streets
      demoParcel.geometry 30 false
    ∧ (c4Resp.roads.map (fun seg => seg.frontage_ft)).Perm
        ((exactIntersectionLengths demoOps c4Streets demoParcel.geometry 30 false).map round2)
    ∧ c4Resp.total_frontage_ft
        = ((exactIntersectionLengths demoOps c4Streets demoParcel.geometry 30 false).map
          round2).sum
    ∧ c4Resp.total_frontage_ft = (c4Resp.roads.map (fun seg => seg.frontage_ft)).sum :=
  C4_theorem demoOps demoParcels c4Streets ("R1") ("1") 30 false demoParcel c4Resp
    (by decide) rfl rfl rfl

theorem demo_calc_c10 :
    calculate_frontage_with_tolerance demoOps c10Streets DemoG.gParcel 30 false
      = [{ street_name := "TINY LN"
           frontage_ft := 0
           road_type := "Local Road"
           cfcc := "A51" }] := by
  simp only [calculate_frontage_with_tolerance, sortByFrontageDesc]
  rw [demo_buffer_30]
  rw [show (if (false : Bool) = true then c10Streets else publicFilter c10Streets)
    = [streetT] from by decide]
  rw [List.filterMap_cons, List.filterMap_nil, demo_entry_T]
  rfl

/-- C10: in the sliver scene, TINY LN's exact intersection length at the strict
tier is 0.004 ft - positive but below 0.005 - so the street is included in the
returned roads list with a reported frontage_ft of 0.0; consequently the
response has road_count = 1 > 0 while total_frontage_ft = 0 and
has_strict_frontage is false. -/
theorem C10_theorem :
    calculate_frontage_with_tolerance demoOps c10Streets DemoG.gParcel 30 false
      = [{ street_name := "TINY LN"
           frontage_ft := 0
           road_type := "Local Road"
           cfcc := "A51" }]
    ∧ demoOps.length (demoOps.intersection (demoOps.buffer
        (demoOps.boundary DemoG.gParcel) 30) streetT.geometry) = 1/250
    ∧ (0 : ℚ) < 1/250
    ∧ (1/250 : ℚ) < 1/200
    ∧ analyze_parcel demoOps demoParcels c10Streets (some ("R1")) = .ok (.ok c10Resp)
    ∧ c10Resp.strict_analysis.road_count = 1
    ∧ c10Resp.strict_analysis.total_frontage_ft = 0
    ∧ c10Resp.llm_context.has_strict_frontage = false := by
  have hlen : demoOps.length (demoOps.intersection (demoOps.buffer
      (demoOps.boundary DemoG.gParcel) 30) streetT.geometry) = 1/250 := by
    rw [demo_buffer_30]
    show demoLength (demoIntersection (DemoG.gBand 30) DemoG.gT) = 1/250
    norm_num [demoIntersection, demoLength]
  have hcount : c10Resp.strict_analysis.road_count = 1 := by
    show (calculate_frontage_with_tolerance demoOps c10Streets DemoG.gParcel
      30 false).length = 1
    rw [demo_calc_c10]
    rfl
  have htot : c10Resp.strict_analysis.total_frontage_ft = 0 := by
    show round2 (((calculate_frontage_with_tolerance demoOps c10Streets DemoG.gParcel
      30 false).map (fun r => r.frontage_ft)).sum) = 0
    rw [demo_calc_c10]
    norm_num [round2_zero]
  have hhas : c10Resp.llm_context.has_strict_frontage = false := by
    show decide (0 < ((calculate_frontage_with_tolerance demoOps c10Streets DemoG.gParcel
      30 false).map (fun r => r.frontage_ft)).sum) = false
    apply decide_eq_false
    rw [demo_calc_c10]
    norm_num
  exact ⟨demo_calc_c10, hlen, by norm_num, by norm_num, rfl, hcount, htot, hhas⟩
